import Mathlib

/-!
Shallow embedding of `lighthousectl` (src/src/main.rs): the PowerState codec,
the name Filter, the device discovery pipeline, and the scan/command loop,
together with theorems settling the specification claims.

Effects are made explicit: fallible radio operations are `Except String`
values carried by the modelled peripherals, printed lines and characteristic
writes are accumulated in the run result, and the asynchronous discovery
stream is a list of `Except`-wrapped elements consumed in order.
-/

namespace Lighthousectl

/-- The control characteristic UUID constant (`CHARACTERISTIC_UUID` in main.rs). -/
def CHARACTERISTIC_UUID : String := "00001525-1212-efde-1523-785feabcd124"

/-- The CLI command (`enum Command` in main.rs). -/
inductive Command
  | on
  | sleep
  | standby
  | scan
deriving DecidableEq, Repr

/-- The device power state (`enum PowerState` in main.rs).  The raw status
byte is modelled as a `Nat`; the code only ever builds it from a `u8`. -/
inductive PowerState
  | sleep
  | booting
  | standby
  | on
  | unknown (byte : Nat)
deriving DecidableEq, Repr

/-- `impl From<u8> for PowerState`: decode one status byte. -/
def PowerState.decode (byte : Nat) : PowerState :=
  match byte with
  | 0x00 => .sleep
  | 0x01 | 0x08 | 0x09 => .booting
  | 0x02 => .standby
  | 0x0b => .on
  | byte => .unknown byte

/-- `impl From<PowerState> for u8`: encode a power state as a command byte. -/
def PowerState.encode : PowerState → Nat
  | .sleep => 0x00
  | .booting => 0x01
  | .standby => 0x02
  | .on => 0x01
  | .unknown byte => byte

/-- One lowercase hexadecimal digit, as produced by Rust's `{:02x}`. -/
def hexDigit (n : Nat) : Char :=
  if n < 10 then Char.ofNat (48 + n) else Char.ofNat (87 + n)

/-- Two-digit lowercase hexadecimal rendering of a byte (`{:02x}`). -/
def hexByte (b : Nat) : String :=
  String.mk [hexDigit (b / 16 % 16), hexDigit (b % 16)]

/-- `impl Display for PowerState`. -/
def PowerState.display : PowerState → String
  | .sleep => "SLEEP"
  | .standby => "STANDBY"
  | .booting => "BOOTING"
  | .on => "ON"
  | .unknown byte => "UNKNOWN(0x" ++ hexByte byte ++ ")"

/-- `struct Filter`: an optional pending set of device names.  Rust's
`BTreeSet<String>` is modelled as a `Finset String`. -/
structure Filter where
  names : Option (Finset String)
deriving DecidableEq

/-- `Filter::new`: empty input means unrestricted mode (`None`), otherwise
the deduplicated set of the given names. -/
def Filter.new (names : List String) : Filter :=
  ⟨if names.isEmpty then none else some names.toFinset⟩

/-- `Filter::is_completed`: restricted mode is completed exactly when the
pending set is empty; unrestricted mode never completes. -/
def Filter.is_completed (f : Filter) : Bool :=
  match f.names with
  | some s => decide (s = ∅)
  | none => false

/-- `Filter::is_matched`: in restricted mode, remove `name` from the pending
set and report whether it was present (`BTreeSet::remove`); in unrestricted
mode always report a match without mutation.  The mutated filter is returned
alongside the result. -/
def Filter.is_matched (f : Filter) (name : String) : Bool × Filter :=
  match f.names with
  | some s => (decide (name ∈ s), ⟨some (s.erase name)⟩)
  | none => (true, f)

/-- Apply a sequence of `is_matched` calls, keeping the final filter state. -/
def Filter.applyOps (f : Filter) (ops : List String) : Filter :=
  ops.foldl (fun g n => (g.is_matched n).2) f

/-- A GATT characteristic, identified by its UUID. -/
structure Characteristic where
  uuid : String
deriving DecidableEq, Repr

/-- Advertised peripheral properties.  Only the pieces the code inspects are
modelled: the key set of the manufacturer-data map and the local name. -/
structure Props where
  manufacturerData : List Nat
  localName : Option String

/-- A peripheral handle.  Each fallible radio operation is modelled by the
outcome it would produce for this peripheral. -/
structure Peripheral where
  properties : Except String (Option Props)
  connect : Except String Unit
  discoverServices : Except String Unit
  disconnect : Except String Unit
  characteristics : List Characteristic
  read : Except String (List Nat)
  write : Except String Unit

/-- `struct Lighthouse`: a discovered, ready-to-command device. -/
structure Lighthouse where
  name : String
  peripheral : Peripheral
  characteristic : Characteristic

/-- The radio events relevant to discovery (`CentralEvent`); all other event
kinds are collapsed into `other`. -/
inductive CentralEvent
  | deviceDiscovered (id : Nat)
  | deviceUpdated (id : Nat)
  | other

/-- The event filter of the discovery pipeline (`filter_map` in `discover`):
keep only discovered/updated events and extract the device identifier. -/
def eventId : CentralEvent → Option Nat
  | .deviceDiscovered id => some id
  | .deviceUpdated id => some id
  | .other => none

/-- The body of `try_filter_map` in `discover`: the semantic filters
(properties present, vendor id 0x055d, local name, control characteristic)
skip the peripheral with `none`; the transport operations (properties,
connect, discover services, disconnect) turn failures into error elements. -/
def processPeripheral (p : Peripheral) : Option (Except String Lighthouse) :=
  match p.properties with
  | .error e => some (.error e)
  | .ok none => none
  | .ok (some props) =>
    if 0x055d ∈ props.manufacturerData then
      match props.localName with
      | none => none
      | some localName =>
        match p.connect with
        | .error e => some (.error e)
        | .ok _ =>
          match p.discoverServices with
          | .error e => some (.error e)
          | .ok _ =>
            match p.disconnect with
            | .error e => some (.error e)
            | .ok _ =>
              match p.characteristics.find? (fun ch => ch.uuid == CHARACTERISTIC_UUID) with
              | none => none
              | some ch => some (.ok ⟨localName, p, ch⟩)
    else none

/-- One step of the discovery pipeline, for one radio event: event filter,
identifier resolution (`central.peripheral`), then `processPeripheral`. -/
def discoverStep (resolve : Nat → Except String Peripheral)
    (ev : CentralEvent) : Option (Except String Lighthouse) :=
  match eventId ev with
  | none => none
  | some id =>
    match resolve id with
    | .error e => some (.error e)
    | .ok p => processPeripheral p

/-- The adapter capability used by `discover`: starting the scan and
subscribing to the event feed may fail; identifiers resolve to peripherals. -/
structure Adapter where
  startScan : Except String Unit
  events : Except String (List CentralEvent)
  resolve : Nat → Except String Peripheral

/-- `discover`: start scanning, subscribe to the feed, and build the lazy
sequence of pipeline elements (modelled as the list of produced elements). -/
def discover (a : Adapter) : Except String (List (Except String Lighthouse)) := do
  let _ ← a.startScan
  let evs ← a.events
  pure (evs.filterMap (discoverStep a.resolve))

/-- The terminal state of one run of the scan/command loop. -/
inductive Outcome
  | completed
  | streamExhausted
  | failed (err : String)
deriving DecidableEq, Repr

/-- The observable result of one run: terminal state, printed lines in order,
and the characteristic writes performed (device name, written byte). -/
structure RunResult where
  outcome : Outcome
  printed : List String
  writes : List (String × Nat)
deriving DecidableEq, Repr

/-- The target state requested by a command: `none` for `Scan` (the arm that
prints and continues), otherwise the `PowerState` the loop will write. -/
def Command.nextState : Command → Option PowerState
  | .scan => none
  | .on => some .on
  | .standby => some .standby
  | .sleep => some .sleep

/-- `scan` (main.rs lines 129-156): the scan/command loop over the discovery
stream.  The stream is the list of elements `try_next` would yield in order;
reaching the end of the list is stream exhaustion. -/
def scan (command : Command) : Filter → List (Except String Lighthouse) → RunResult
  | f, feed =>
    if f.is_completed then ⟨.completed, [], []⟩
    else
      match feed with
      | [] => ⟨.streamExhausted, [], []⟩
      | .error e :: _ => ⟨.failed e, [], []⟩
      | .ok lh :: rest =>
        if (f.is_matched lh.name).1 then
          match lh.peripheral.read with
          | .error e => ⟨.failed e, [], []⟩
          | .ok bytes =>
            match bytes.head? with
            | none => scan command (f.is_matched lh.name).2 rest
            | some b =>
              let current := PowerState.decode b
              match command.nextState with
              | none =>
                let r := scan command (f.is_matched lh.name).2 rest
                ⟨r.outcome, (lh.name ++ ": " ++ current.display) :: r.printed, r.writes⟩
              | some next =>
                let line := lh.name ++ ": " ++ current.display ++ " -> " ++ next.display
                match lh.peripheral.write with
                | .error e => ⟨.failed e, [line], []⟩
                | .ok _ =>
                  let r := scan command (f.is_matched lh.name).2 rest
                  ⟨r.outcome, line :: r.printed, (lh.name, next.encode) :: r.writes⟩
        else scan command (f.is_matched lh.name).2 rest

/-- The raw byte carried by an `unknown` power state, if any. -/
def PowerState.rawByte : PowerState → Option Nat
  | .unknown b => some b
  | _ => none

/-- A peripheral whose transport operations all succeed and whose
characteristic read yields `bytes`; used to build concrete scenarios. -/
def okPeripheral (bytes : List Nat) : Peripheral :=
  ⟨.ok none, .ok (), .ok (), .ok (), [], .ok bytes, .ok ()⟩

/-- A ready device named `name` whose status read yields `bytes`. -/
def mkDev (name : String) (bytes : List Nat) : Lighthouse :=
  ⟨name, okPeripheral bytes, ⟨CHARACTERISTIC_UUID⟩⟩

/- ## Filter helper lemmas -/

lemma Filter.applyOps_nil (f : Filter) : f.applyOps [] = f := rfl

lemma Filter.applyOps_cons (f : Filter) (n : String) (ops : List String) :
    f.applyOps (n :: ops) = ((f.is_matched n).2).applyOps ops := rfl

lemma Filter.applyOps_none (ops : List String) :
    Filter.applyOps ⟨none⟩ ops = ⟨none⟩ := by
  induction ops with
  | nil => rfl
  | cons n rest ih => exact ih

lemma Filter.completed_names {f : Filter} (h : f.is_completed = true) :
    f.names = some ∅ := by
  rcases f with ⟨_ | s⟩
  · simp [Filter.is_completed] at h
  · simp [Filter.is_completed] at h
    simp [h]

lemma Filter.is_matched_snd_names (f : Filter) (n : String) :
    ((f.is_matched n).2).names = f.names.map (fun s => s.erase n) := by
  rcases f with ⟨_ | s⟩ <;> rfl

/- ## Scan loop unfolding lemmas -/

lemma scan_unfold (cmd : Command) (f : Filter) (feed : List (Except String Lighthouse)) :
    scan cmd f feed =
      if f.is_completed then ⟨.completed, [], []⟩
      else
        match feed with
        | [] => ⟨.streamExhausted, [], []⟩
        | .error e :: _ => ⟨.failed e, [], []⟩
        | .ok lh :: rest =>
          if (f.is_matched lh.name).1 then
            match lh.peripheral.read with
            | .error e => ⟨.failed e, [], []⟩
            | .ok bytes =>
              match bytes.head? with
              | none => scan cmd (f.is_matched lh.name).2 rest
              | some b =>
                let current := PowerState.decode b
                match cmd.nextState with
                | none =>
                  let r := scan cmd (f.is_matched lh.name).2 rest
                  ⟨r.outcome, (lh.name ++ ": " ++ current.display) :: r.printed, r.writes⟩
                | some next =>
                  let line := lh.name ++ ": " ++ current.display ++ " -> " ++ next.display
                  match lh.peripheral.write with
                  | .error e => ⟨.failed e, [line], []⟩
                  | .ok _ =>
                    let r := scan cmd (f.is_matched lh.name).2 rest
                    ⟨r.outcome, line :: r.printed, (lh.name, next.encode) :: r.writes⟩
          else scan cmd (f.is_matched lh.name).2 rest := by
  rw [scan.eq_def]

lemma scan_completed (cmd : Command) (f : Filter) (feed : List (Except String Lighthouse))
    (h : f.is_completed = true) : scan cmd f feed = ⟨.completed, [], []⟩ := by
  rw [scan_unfold]
  simp [h]

lemma scan_exhausted (cmd : Command) (f : Filter) (h : f.is_completed = false) :
    scan cmd f [] = ⟨.streamExhausted, [], []⟩ := by
  rw [scan_unfold]
  simp [h]

lemma scan_stream_error (cmd : Command) (f : Filter) (e : String)
    (rest : List (Except String Lighthouse)) (h : f.is_completed = false) :
    scan cmd f (.error e :: rest) = ⟨.failed e, [], []⟩ := by
  rw [scan_unfold]
  simp [h]

lemma scan_not_matched (cmd : Command) (f : Filter) (lh : Lighthouse)
    (rest : List (Except String Lighthouse)) (h : f.is_completed = false)
    (hm : (f.is_matched lh.name).1 = false) :
    scan cmd f (.ok lh :: rest) = scan cmd (f.is_matched lh.name).2 rest := by
  rw [scan_unfold]
  simp [h, hm]

lemma scan_read_error (cmd : Command) (f : Filter) (lh : Lighthouse)
    (rest : List (Except String Lighthouse)) (e : String) (h : f.is_completed = false)
    (hm : (f.is_matched lh.name).1 = true) (hr : lh.peripheral.read = .error e) :
    scan cmd f (.ok lh :: rest) = ⟨.failed e, [], []⟩ := by
  rw [scan_unfold]
  simp [h, hm, hr]

lemma scan_empty_read (cmd : Command) (f : Filter) (lh : Lighthouse)
    (rest : List (Except String Lighthouse)) (h : f.is_completed = false)
    (hm : (f.is_matched lh.name).1 = true) (hr : lh.peripheral.read = .ok []) :
    scan cmd f (.ok lh :: rest) = scan cmd (f.is_matched lh.name).2 rest := by
  rw [scan_unfold]
  simp [h, hm, hr]

lemma scan_write_error (cmd : Command) (f : Filter) (lh : Lighthouse)
    (rest : List (Except String Lighthouse)) (e : String) (b : Nat) (bs : List Nat)
    (next : PowerState) (h : f.is_completed = false)
    (hm : (f.is_matched lh.name).1 = true) (hr : lh.peripheral.read = .ok (b :: bs))
    (hn : cmd.nextState = some next) (hw : lh.peripheral.write = .error e) :
    scan cmd f (.ok lh :: rest) =
      ⟨.failed e,
       [lh.name ++ ": " ++ (PowerState.decode b).display ++ " -> " ++ next.display], []⟩ := by
  rw [scan_unfold]
  simp [h, hm, hr, hn, hw]

lemma scan_scan_matched (f : Filter) (lh : Lighthouse)
    (rest : List (Except String Lighthouse)) (b : Nat) (bs : List Nat)
    (h : f.is_completed = false) (hm : (f.is_matched lh.name).1 = true)
    (hr : lh.peripheral.read = .ok (b :: bs)) :
    scan .scan f (.ok lh :: rest) =
      ⟨(scan .scan (f.is_matched lh.name).2 rest).outcome,
       (lh.name ++ ": " ++ (PowerState.decode b).display) ::
         (scan .scan (f.is_matched lh.name).2 rest).printed,
       (scan .scan (f.is_matched lh.name).2 rest).writes⟩ := by
  rw [scan_unfold]
  simp [h, hm, hr, Command.nextState]

lemma scan_scan_writes (f : Filter) (feed : List (Except String Lighthouse)) :
    (scan .scan f feed).writes = [] := by
  induction feed generalizing f with
  | nil =>
    rw [scan_unfold]
    split <;> rfl
  | cons el rest ih =>
    rw [scan_unfold]
    split
    · rfl
    · cases el with
      | error e => rfl
      | ok lh =>
        by_cases hm : (f.is_matched lh.name).1 = true
        · cases hr : lh.peripheral.read with
          | error e => simp [hm, hr]
          | ok bytes =>
            cases bytes with
            | nil => simp [hm, hr, ih]
            | cons b bs => simp [hm, hr, Command.nextState, ih]
        · simp [hm, ih]

/- ## Discovery pipeline lemmas -/

lemma processPeripheral_props_error (p : Peripheral) (e : String)
    (h : p.properties = .error e) : processPeripheral p = some (.error e) := by
  simp [processPeripheral, h]

lemma processPeripheral_props_none (p : Peripheral)
    (h : p.properties = .ok none) : processPeripheral p = none := by
  simp [processPeripheral, h]

lemma processPeripheral_no_vendor (p : Peripheral) (props : Props)
    (h : p.properties = .ok (some props)) (hv : 0x055d ∉ props.manufacturerData) :
    processPeripheral p = none := by
  simp [processPeripheral, h, hv]

lemma processPeripheral_no_name (p : Peripheral) (props : Props)
    (h : p.properties = .ok (some props)) (hn : props.localName = none) :
    processPeripheral p = none := by
  simp [processPeripheral, h, hn]

lemma processPeripheral_connect_error (p : Peripheral) (props : Props) (nm e : String)
    (h : p.properties = .ok (some props)) (hv : 0x055d ∈ props.manufacturerData)
    (hn : props.localName = some nm) (hc : p.connect = .error e) :
    processPeripheral p = some (.error e) := by
  simp [processPeripheral, h, hv, hn, hc]

lemma processPeripheral_services_error (p : Peripheral) (props : Props) (nm e : String)
    (h : p.properties = .ok (some props)) (hv : 0x055d ∈ props.manufacturerData)
    (hn : props.localName = some nm) (hc : p.connect = .ok ())
    (hs : p.discoverServices = .error e) :
    processPeripheral p = some (.error e) := by
  simp [processPeripheral, h, hv, hn, hc, hs]

lemma processPeripheral_disconnect_error (p : Peripheral) (props : Props) (nm e : String)
    (h : p.properties = .ok (some props)) (hv : 0x055d ∈ props.manufacturerData)
    (hn : props.localName = some nm) (hc : p.connect = .ok ())
    (hs : p.discoverServices = .ok ()) (hd : p.disconnect = .error e) :
    processPeripheral p = some (.error e) := by
  simp [processPeripheral, h, hv, hn, hc, hs, hd]

lemma processPeripheral_no_char (p : Peripheral) (props : Props) (nm : String)
    (h : p.properties = .ok (some props)) (hv : 0x055d ∈ props.manufacturerData)
    (hn : props.localName = some nm) (hc : p.connect = .ok ())
    (hs : p.discoverServices = .ok ()) (hd : p.disconnect = .ok ())
    (hch : ∀ ch ∈ p.characteristics, ch.uuid ≠ CHARACTERISTIC_UUID) :
    processPeripheral p = none := by
  have hfind : p.characteristics.find? (fun ch => ch.uuid == CHARACTERISTIC_UUID) = none :=
    List.find?_eq_none.mpr (fun ch hmem => by simpa using hch ch hmem)
  simp [processPeripheral, h, hv, hn, hc, hs, hd, hfind]

lemma processPeripheral_ok_inv {p : Peripheral} {lh : Lighthouse}
    (h : processPeripheral p = some (.ok lh)) :
    lh.peripheral = p ∧ ∃ props : Props, p.properties = .ok (some props) ∧
      0x055d ∈ props.manufacturerData ∧ props.localName = some lh.name ∧
      lh.characteristic ∈ p.characteristics ∧
      lh.characteristic.uuid = CHARACTERISTIC_UUID := by
  unfold processPeripheral at h
  split at h
  · exact absurd h (by simp)
  · exact absurd h (by simp)
  · rename_i props heq
    split at h
    · rename_i hv
      split at h
      · exact absurd h (by simp)
      · rename_i nm hn
        split at h
        · exact absurd h (by simp)
        · rename_i u hc
          split at h
          · exact absurd h (by simp)
          · rename_i v hs
            split at h
            · exact absurd h (by simp)
            · rename_i w hd
              split at h
              · exact absurd h (by simp)
              · rename_i ch hfind
                have hlh : Lighthouse.mk nm p ch = lh := by
                  simpa using h
                subst hlh
                refine ⟨rfl, props, heq, hv, hn, List.mem_of_find?_eq_some hfind, ?_⟩
                have := List.find?_some hfind
                simpa using this
    · exact absurd h (by simp)

lemma discoverStep_resolve_error (resolve : Nat → Except String Peripheral)
    (id : Nat) (e : String) (h : resolve id = .error e) :
    discoverStep resolve (.deviceDiscovered id) = some (.error e) ∧
    discoverStep resolve (.deviceUpdated id) = some (.error e) := by
  constructor <;> simp [discoverStep, eventId, h]

lemma discoverStep_resolved (resolve : Nat → Except String Peripheral)
    (id : Nat) (p : Peripheral) (h : resolve id = .ok p) :
    discoverStep resolve (.deviceDiscovered id) = processPeripheral p ∧
    discoverStep resolve (.deviceUpdated id) = processPeripheral p := by
  constructor <;> simp [discoverStep, eventId, h]

/- ## Claim theorems -/

set_option maxRecDepth 8000

/-- C3: `decode` is total on all 256 byte values and maps exactly per the
table — 0x00 to Sleep; 0x01, 0x08, 0x09 to Booting; 0x02 to Standby; 0x0b to
On; every other byte `b` to Unknown `b`, whose raw byte is exactly `b`. -/
theorem power_decode_table :
    ∀ b : Fin 256,
      (b.val = 0x00 → PowerState.decode b.val = .sleep) ∧
      ((b.val = 0x01 ∨ b.val = 0x08 ∨ b.val = 0x09) →
        PowerState.decode b.val = .booting) ∧
      (b.val = 0x02 → PowerState.decode b.val = .standby) ∧
      (b.val = 0x0b → PowerState.decode b.val = .on) ∧
      (b.val ∉ ([0x00, 0x01, 0x08, 0x09, 0x02, 0x0b] : List Nat) →
        PowerState.decode b.val = .unknown b.val ∧
        (PowerState.decode b.val).rawByte = some b.val) := by
  decide

/-- Witness for C3 at the concrete byte 0x05 (an "any other" byte). -/
theorem power_decode_table_witness :
    PowerState.decode 0x05 = .unknown 0x05 ∧
    (PowerState.decode 0x05).rawByte = some 0x05 :=
  (power_decode_table ⟨0x05, by decide⟩).2.2.2.2 (by decide)

/-- C4: the encode table (Sleep to 0x00, Booting to 0x01, Standby to 0x02,
On to 0x01, Unknown b to b), the preserved On/Booting encode collision
`encode (decode 0x0b) = 0x01`, and round-tripping of every byte outside the
decode table. -/
theorem power_encode_decode :
    (PowerState.encode .sleep = 0x00 ∧ PowerState.encode .booting = 0x01 ∧
     PowerState.encode .standby = 0x02 ∧ PowerState.encode .on = 0x01 ∧
     ∀ b : Nat, PowerState.encode (.unknown b) = b) ∧
    PowerState.encode (PowerState.decode 0x0b) = 0x01 ∧
    ∀ b : Fin 256, b.val ∉ ([0x00, 0x01, 0x08, 0x09, 0x02, 0x0b] : List Nat) →
      PowerState.encode (PowerState.decode b.val) = b.val :=
  ⟨⟨rfl, rfl, rfl, rfl, fun _ => rfl⟩, rfl, by decide⟩

/-- Witness for C4 at the concrete byte 0x2a. -/
theorem power_encode_decode_witness :
    PowerState.encode (PowerState.decode 0x2a) = 0x2a :=
  power_encode_decode.2.2 ⟨0x2a, by decide⟩ (by decide)

/-- C5: in restricted mode `is_matched` removes the name from the pending set
and returns whether it was present (false once consumed), `is_completed` is
true iff the pending set is empty, and the concrete {"A","B"} scenario plays
out as specified. -/
theorem filter_restricted_semantics :
    (∀ names : List String, names ≠ [] → Filter.new names = ⟨some names.toFinset⟩) ∧
    (∀ (s : Finset String) (name : String),
      (((Filter.mk (some s)).is_matched name).1 = true ↔ name ∈ s) ∧
      ((Filter.mk (some s)).is_matched name).2 = Filter.mk (some (s.erase name)) ∧
      ((((Filter.mk (some s)).is_matched name).2).is_matched name).1 = false ∧
      ((Filter.mk (some s)).is_completed = true ↔ s = ∅)) ∧
    ((Filter.new ["A", "B"]).is_matched "A").1 = true ∧
    ((Filter.new ["A", "B"]).is_matched "A").2 = ⟨some {"B"}⟩ ∧
    (((Filter.new ["A", "B"]).is_matched "A").2.is_matched "A").1 = false ∧
    (((Filter.new ["A", "B"]).is_matched "A").2.is_matched "B").1 = true ∧
    ((((Filter.new ["A", "B"]).is_matched "A").2).is_matched "B").2.is_completed = true := by
  refine ⟨?_, ?_, by decide, by decide, by decide, by decide, by decide⟩
  · intro names h
    simp [Filter.new, h]
  · intro s name
    refine ⟨by simp [Filter.is_matched], rfl, ?_, by simp [Filter.is_completed]⟩
    simp [Filter.is_matched]

/-- Witness for C5: the general restricted-mode facts at a concrete filter. -/
theorem filter_restricted_semantics_witness :
    ((Filter.mk (some {"A"})).is_matched "A").1 = true ∧
    Filter.new ["A"] = ⟨some ({"A"} : Finset String)⟩ :=
  ⟨(filter_restricted_semantics.2.1 {"A"} "A").1.mpr (by simp),
   filter_restricted_semantics.1 ["A"] (by simp)⟩

/-- C6: an unrestricted filter (empty name list) never completes, matches
every name, and no sequence of operations changes it. -/
theorem filter_unrestricted_semantics :
    ∀ (ops : List String) (name : String),
      ((Filter.new []).applyOps ops).is_completed = false ∧
      (((Filter.new []).applyOps ops).is_matched name).1 = true ∧
      (((Filter.new []).applyOps ops).is_matched name).2 = (Filter.new []).applyOps ops := by
  intro ops name
  have h : (Filter.new []).applyOps ops = ⟨none⟩ := Filter.applyOps_none ops
  rw [h]
  exact ⟨rfl, rfl, rfl⟩

/-- C10: the filter's mode is fixed at construction, the pending set never
grows, and completion is monotone — once completed, every later
`is_completed` is true and every later `is_matched` returns false. -/
theorem filter_mode_invariants :
    ∀ (f : Filter) (ops : List String),
      ((f.applyOps ops).names.isSome = f.names.isSome) ∧
      (∀ s : Finset String, f.names = some s →
        ∃ s', (f.applyOps ops).names = some s' ∧ s' ⊆ s) ∧
      (f.is_completed = true →
        (f.applyOps ops).is_completed = true ∧
        ∀ name, ((f.applyOps ops).is_matched name).1 = false) := by
  intro f ops
  induction ops generalizing f with
  | nil =>
    refine ⟨rfl, fun s hs => ⟨s, hs, le_refl s⟩, fun h => ⟨h, fun name => ?_⟩⟩
    have hn := Filter.completed_names h
    rcases f with ⟨names⟩
    cases hn
    simp [Filter.applyOps, Filter.is_matched]
  | cons n rest ih =>
    rw [Filter.applyOps_cons]
    have hstep := Filter.is_matched_snd_names f n
    refine ⟨(ih _).1.trans ?_, fun s hs => ?_, fun h => ?_⟩
    · rw [hstep]
      rcases f with ⟨_ | s⟩ <;> rfl
    · obtain ⟨s', hs', hsub⟩ := (ih _).2.1 (s.erase n) (by rw [hstep, hs]; rfl)
      exact ⟨s', hs', hsub.trans (Finset.erase_subset n s)⟩
    · have hn := Filter.completed_names h
      apply (ih _).2.2
      rcases f with ⟨names⟩
      cases hn
      simp [Filter.is_completed, Filter.is_matched]

/-- Witness for C10: invariants applied to a concrete completed filter. -/
theorem filter_mode_invariants_witness :
    ((Filter.mk (some ∅)).applyOps ["X"]).is_completed = true ∧
    (((Filter.mk (some ∅)).applyOps ["X"]).is_matched "Y").1 = false := by
  have h := (filter_mode_invariants ⟨some ∅⟩ ["X"]).2.2 (by decide)
  exact ⟨h.1, h.2 "Y"⟩

/-- C1 counterexample: under command `standby`, a sole requested device named
"LHB-1" whose status byte reads 0x02 (Standby) DOES receive a characteristic
write (of the encoded target byte 0x02) — the loop has no already-at-target
check, so the claim's "performs no characteristic write" is false. -/
theorem standby_scenario_write_occurs :
    (scan .standby (Filter.new ["LHB-1"]) [.ok (mkDev "LHB-1" [0x02])]).writes =
      [("LHB-1", 0x02)] ∧
    (scan .standby (Filter.new ["LHB-1"]) [.ok (mkDev "LHB-1" [0x02])]).writes ≠ [] := by
  decide

/-- C1 amended: in that scenario the loop prints "LHB-1: STANDBY -> STANDBY"
and reaches Completed, and it performs exactly one write of the encoded
target byte 0x02 (writes are unconditional for non-scan commands). -/
theorem standby_scenario_amended :
    scan .standby (Filter.new ["LHB-1"]) [.ok (mkDev "LHB-1" [0x02])] =
      ⟨.completed, ["LHB-1: STANDBY -> STANDBY"], [("LHB-1", 0x02)]⟩ := by
  decide

/-- C2 counterexample: the filter match IS permanently consumed on an empty
read.  With requested name "A", a device "A" whose read returns zero bytes,
followed by a later advertisement of "A" with a good read: the run completes
having printed nothing — the second advertisement no longer matches, and the
filter is already completed right after the first `is_matched` call. -/
theorem empty_read_consumes_match :
    scan .scan (Filter.new ["A"]) [.ok (mkDev "A" []), .ok (mkDev "A" [0x02])] =
      ⟨.completed, [], []⟩ ∧
    ((Filter.new ["A"]).is_matched "A").2.is_completed = true := by
  decide

/-- C2 amended: a zero-byte read for a matched device does not abort the run
(the loop silently skips it and keeps scanning), but the device's filter
match is permanently consumed: `is_matched` removes the name from the pending
set before the read, so the same name no longer matches afterwards. -/
theorem empty_read_amended :
    (∀ (cmd : Command) (f : Filter) (lh : Lighthouse)
        (rest : List (Except String Lighthouse)),
      f.is_completed = false → (f.is_matched lh.name).1 = true →
      lh.peripheral.read = .ok [] →
      scan cmd f (.ok lh :: rest) = scan cmd (f.is_matched lh.name).2 rest) ∧
    (∀ (s : Finset String) (name : String),
      (((Filter.mk (some s)).is_matched name).2).names = some (s.erase name) ∧
      ((((Filter.mk (some s)).is_matched name).2).is_matched name).1 = false) :=
  ⟨scan_empty_read, fun _ name => ⟨rfl, by simp [Filter.is_matched]⟩⟩

/-- Witness for the amended C2 at a concrete device with an empty read. -/
theorem empty_read_amended_witness :
    scan .scan (Filter.new ["A"]) [.ok (mkDev "A" [])] =
      scan .scan ((Filter.new ["A"]).is_matched "A").2 [] :=
  empty_read_amended.1 .scan (Filter.new ["A"]) (mkDev "A" []) [] (by decide) (by decide) rfl

/-- C7: every device the discovery pipeline yields comes from a peripheral
whose manufacturer data has vendor id 0x055d, whose advertised local name is
the device's name, and which exposes the control characteristic; peripherals
failing the vendor, name, or characteristic filter are skipped with no
element and no error. -/
theorem discover_vendor_name_char_filter :
    (∀ (resolve : Nat → Except String Peripheral) (ev : CentralEvent) (lh : Lighthouse),
      discoverStep resolve ev = some (.ok lh) →
      ∃ props : Props, lh.peripheral.properties = .ok (some props) ∧
        0x055d ∈ props.manufacturerData ∧
        props.localName = some lh.name ∧
        lh.characteristic ∈ lh.peripheral.characteristics ∧
        lh.characteristic.uuid = CHARACTERISTIC_UUID) ∧
    (∀ (p : Peripheral) (props : Props), p.properties = .ok (some props) →
      0x055d ∉ props.manufacturerData → processPeripheral p = none) ∧
    (∀ (p : Peripheral) (props : Props), p.properties = .ok (some props) →
      props.localName = none → processPeripheral p = none) ∧
    (∀ (p : Peripheral) (props : Props) (nm : String),
      p.properties = .ok (some props) → 0x055d ∈ props.manufacturerData →
      props.localName = some nm → p.connect = .ok () → p.discoverServices = .ok () →
      p.disconnect = .ok () →
      (∀ ch ∈ p.characteristics, ch.uuid ≠ CHARACTERISTIC_UUID) →
      processPeripheral p = none) := by
  refine ⟨?_, processPeripheral_no_vendor, processPeripheral_no_name,
    processPeripheral_no_char⟩
  intro resolve ev lh h
  cases ev with
  | deviceDiscovered id =>
    cases hr : resolve id with
    | error e =>
      rw [(discoverStep_resolve_error resolve id e hr).1] at h
      exact absurd h (by simp)
    | ok p =>
      rw [(discoverStep_resolved resolve id p hr).1] at h
      obtain ⟨hp, props, h1, h2, h3, h4, h5⟩ := processPeripheral_ok_inv h
      subst hp
      exact ⟨props, h1, h2, h3, h4, h5⟩
  | deviceUpdated id =>
    cases hr : resolve id with
    | error e =>
      rw [(discoverStep_resolve_error resolve id e hr).2] at h
      exact absurd h (by simp)
    | ok p =>
      rw [(discoverStep_resolved resolve id p hr).2] at h
      obtain ⟨hp, props, h1, h2, h3, h4, h5⟩ := processPeripheral_ok_inv h
      subst hp
      exact ⟨props, h1, h2, h3, h4, h5⟩
  | other => simp [discoverStep, eventId] at h

/-- Witness for C7: a concrete peripheral without the vendor id is skipped. -/
theorem discover_vendor_name_char_filter_witness :
    processPeripheral
      ⟨.ok (some ⟨[], some "X"⟩), .ok (), .ok (), .ok (), [⟨CHARACTERISTIC_UUID⟩],
       .ok [2], .ok ()⟩ = none :=
  discover_vendor_name_char_filter.2.1 _ ⟨[], some "X"⟩ rfl (by simp)

/-- C8: under the `scan` command no characteristic write ever occurs, each
matched device with a non-empty read contributes exactly one printed status
line "{name}: {current}", and the concrete three-device unrestricted feed
prints exactly three lines, performs no writes, and ends in StreamExhausted. -/
theorem scan_command_no_writes :
    (∀ (f : Filter) (feed : List (Except String Lighthouse)),
      (scan .scan f feed).writes = []) ∧
    (∀ (f : Filter) (lh : Lighthouse) (rest : List (Except String Lighthouse))
        (b : Nat) (bs : List Nat),
      f.is_completed = false → (f.is_matched lh.name).1 = true →
      lh.peripheral.read = .ok (b :: bs) →
      (scan .scan f (.ok lh :: rest)).printed =
        (lh.name ++ ": " ++ (PowerState.decode b).display) ::
          (scan .scan (f.is_matched lh.name).2 rest).printed) ∧
    scan .scan (Filter.new [])
        [.ok (mkDev "A" [0x0b]), .ok (mkDev "B" [0x00]), .ok (mkDev "C" [0x05])] =
      ⟨.streamExhausted, ["A: ON", "B: SLEEP", "C: UNKNOWN(0x05)"], []⟩ := by
  refine ⟨scan_scan_writes, ?_, by decide⟩
  intro f lh rest b bs h hm hr
  rw [scan_scan_matched f lh rest b bs h hm hr]

/-- Witness for C8 at a concrete one-device feed. -/
theorem scan_command_no_writes_witness :
    (scan .scan (Filter.new []) [.ok (mkDev "A" [0x0b])]).printed = ["A: ON"] := by
  rw [scan_command_no_writes.2.1 (Filter.new []) (mkDev "A" [0x0b]) [] 0x0b [] rfl rfl rfl]
  decide

/-- C9: transport errors (identifier resolution, connect, service
enumeration, disconnect, characteristic read, characteristic write) abort the
run with that error; semantic conditions (missing properties, missing vendor
id, missing local name, missing control characteristic, empty read response)
are silently skipped with no error; the loop checks completion before each
pull and ends in Completed when true; stream exhaustion ends the run
successfully. -/
theorem scan_error_policy :
    (∀ (cmd : Command) (f : Filter) (feed : List (Except String Lighthouse)),
      f.is_completed = true → scan cmd f feed = ⟨.completed, [], []⟩) ∧
    (∀ (cmd : Command) (f : Filter), f.is_completed = false →
      scan cmd f [] = ⟨.streamExhausted, [], []⟩) ∧
    (∀ (cmd : Command) (f : Filter) (e : String)
        (rest : List (Except String Lighthouse)),
      f.is_completed = false → scan cmd f (.error e :: rest) = ⟨.failed e, [], []⟩) ∧
    (∀ (cmd : Command) (f : Filter) (lh : Lighthouse)
        (rest : List (Except String Lighthouse)) (e : String),
      f.is_completed = false → (f.is_matched lh.name).1 = true →
      lh.peripheral.read = .error e →
      scan cmd f (.ok lh :: rest) = ⟨.failed e, [], []⟩) ∧
    (∀ (cmd : Command) (f : Filter) (lh : Lighthouse)
        (rest : List (Except String Lighthouse)) (e : String) (b : Nat)
        (bs : List Nat) (next : PowerState),
      f.is_completed = false → (f.is_matched lh.name).1 = true →
      lh.peripheral.read = .ok (b :: bs) → cmd.nextState = some next →
      lh.peripheral.write = .error e →
      (scan cmd f (.ok lh :: rest)).outcome = .failed e) ∧
    (∀ (cmd : Command) (f : Filter) (lh : Lighthouse)
        (rest : List (Except String Lighthouse)),
      f.is_completed = false → (f.is_matched lh.name).1 = true →
      lh.peripheral.read = .ok [] →
      scan cmd f (.ok lh :: rest) = scan cmd (f.is_matched lh.name).2 rest) ∧
    (∀ (resolve : Nat → Except String Peripheral) (id : Nat) (e : String),
      resolve id = .error e →
      discoverStep resolve (.deviceDiscovered id) = some (.error e) ∧
      discoverStep resolve (.deviceUpdated id) = some (.error e)) ∧
    (∀ (p : Peripheral) (e : String), p.properties = .error e →
      processPeripheral p = some (.error e)) ∧
    (∀ (p : Peripheral) (props : Props) (nm e : String),
      p.properties = .ok (some props) → 0x055d ∈ props.manufacturerData →
      props.localName = some nm → p.connect = .error e →
      processPeripheral p = some (.error e)) ∧
    (∀ (p : Peripheral) (props : Props) (nm e : String),
      p.properties = .ok (some props) → 0x055d ∈ props.manufacturerData →
      props.localName = some nm → p.connect = .ok () →
      p.discoverServices = .error e → processPeripheral p = some (.error e)) ∧
    (∀ (p : Peripheral) (props : Props) (nm e : String),
      p.properties = .ok (some props) → 0x055d ∈ props.manufacturerData →
      props.localName = some nm → p.connect = .ok () →
      p.discoverServices = .ok () → p.disconnect = .error e →
      processPeripheral p = some (.error e)) ∧
    (∀ (p : Peripheral), p.properties = .ok none → processPeripheral p = none) ∧
    (∀ (p : Peripheral) (props : Props), p.properties = .ok (some props) →
      0x055d ∉ props.manufacturerData → processPeripheral p = none) ∧
    (∀ (p : Peripheral) (props : Props), p.properties = .ok (some props) →
      props.localName = none → processPeripheral p = none) ∧
    (∀ (p : Peripheral) (props : Props) (nm : String),
      p.properties = .ok (some props) → 0x055d ∈ props.manufacturerData →
      props.localName = some nm → p.connect = .ok () → p.discoverServices = .ok () →
      p.disconnect = .ok () →
      (∀ ch ∈ p.characteristics, ch.uuid ≠ CHARACTERISTIC_UUID) →
      processPeripheral p = none) := by
  refine ⟨scan_completed, scan_exhausted, scan_stream_error, scan_read_error,
    ?_, scan_empty_read, discoverStep_resolve_error, processPeripheral_props_error,
    processPeripheral_connect_error, processPeripheral_services_error,
    processPeripheral_disconnect_error, processPeripheral_props_none,
    processPeripheral_no_vendor, processPeripheral_no_name, processPeripheral_no_char⟩
  intro cmd f lh rest e b bs next h hm hr hn hw
  rw [scan_write_error cmd f lh rest e b bs next h hm hr hn hw]

/-- Witness for C9: a stream error element fails a concrete run, and a
concrete resolution failure becomes an error element of the pipeline. -/
theorem scan_error_policy_witness :
    scan .scan (Filter.new ["A"]) [.error "boom"] = ⟨.failed "boom", [], []⟩ ∧
    processPeripheral ⟨.error "dead", .ok (), .ok (), .ok (), [], .ok [], .ok ()⟩ =
      some (.error "dead") := by
  obtain ⟨-, -, h3, -, -, -, -, h8, -⟩ := scan_error_policy
  exact ⟨h3 .scan (Filter.new ["A"]) "boom" [] (by decide), h8 _ "dead" rfl⟩

end Lighthousectl
